import Mathlib

/-!
Verification of the deploytunnel bridge subsystem: a shallow embedding of
the Go execution engine (internal/bridge: types.go and bridge.go) and of the
TypeScript adapter side (adapters/base.ts and adapters/vercel/index.ts),
together with theorems settling the specified properties.

Conventions of the embedding:
* Go `time.Duration` is modelled as a `Nat` count of nanoseconds.
* The effectful environment of one `Bridge.Execute` call (filesystem stat,
  JSON marshalling of the params value, the child process run, and JSON
  unmarshalling of the child's stdout) is an explicit `World` record of
  oracles; `Execute` itself is the pure control flow of the Go function over
  that record.
* A Go `error` return is an `Option ExecError`; `ExecError.localMsg`
  models a plain error built with `fmt.Errorf`, and `ExecError.bridgeErr`
  models a returned `*BridgeError` value.
-/

/-- JSON values, for the untyped `data` / `details` payloads
(`map[string]interface{}` on the Go side, `unknown` on the TS side). -/
inductive Json where
  | null : Json
  | bool (b : Bool) : Json
  | num (n : Int) : Json
  | str (s : String) : Json
  | arr (elems : List Json) : Json
  | obj (fields : List (String × Json)) : Json

/-- The closed error-code enumeration (types.go `ErrorCode`,
types.ts `ErrorCode`). -/
inductive ErrorCode where
  | AUTH_FAILED
  | AUTH_REQUIRED
  | PROVIDER_ERROR
  | NETWORK_ERROR
  | INVALID_PARAMS
  | NOT_FOUND
  | RATE_LIMITED
  | UNSUPPORTED
  | TIMEOUT
  | UNKNOWN
deriving DecidableEq, Repr

/-- The structured failure record (types.go `BridgeError`, types.ts
`BridgeError`); field names follow the shared JSON wire keys. -/
structure BridgeError where
  code : ErrorCode
  message : String
  recoverable : Bool
  details : Option Json

/-- The generic adapter response as the Go engine sees it (types.go
`Response`): `data` and `error` carry `omitempty`, `adapter_version` is a
plain string field (absent key decodes to the empty string). -/
structure Response where
  ok : Bool
  data : Option Json
  error : Option BridgeError
  adapter_version : String

/-- Outcome of `cmd.Run()` for the spawned child, as the Go code
discriminates it:
* `timeout`: `cmd.Run` returned an error and `timeoutCtx.Err()` was
  `context.DeadlineExceeded` (the configured deadline elapsed before exit);
* `crash`: `cmd.Run` returned an error (message `errMsg`) without the
  deadline having elapsed; `stderr` is the captured standard-error text;
* `clean`: the process exited cleanly with `stdout` captured. -/
inductive RunOutcome where
  | timeout : RunOutcome
  | crash (errMsg : String) (stderr : String) : RunOutcome
  | clean (stdout : String) : RunOutcome

/-- The effectful environment of one `Execute` call. `π` is the Go type of
the `params interface{}` argument. `fileExists path = false` models
`os.IsNotExist` holding for `os.Stat path`. `marshal` models
`json.Marshal`, `parse` models `json.Unmarshal` of the child's stdout into
`Response` (returning the unmarshal error's text on failure). -/
structure World (π : Type) where
  fileExists : String → Bool
  marshal : π → Except String String
  run : RunOutcome
  parse : String → Except String Response

/-- A Go `error` value returned by `Execute`: either a plain formatted
error (`fmt.Errorf`) or a `*BridgeError`. -/
inductive ExecError where
  | localMsg (msg : String) : ExecError
  | bridgeErr (e : BridgeError) : ExecError

/-- Whether an `ExecError` is a `*BridgeError` (Go type assertion
`err.(*BridgeError)` succeeding). -/
def ExecError.isBridgeErr : ExecError → Bool
  | .bridgeErr _ => true
  | .localMsg _ => false

/-- One nanosecond count of Go's `time.Second`. -/
def second : Nat := 1000000000

/-- bridge.go `defaultTimeout = 30 * time.Second`. -/
def defaultTimeout : Nat := 30 * second

/-- Go's `%s` rendering of a `time.Duration`, modelled for the whole-second
values this code constructs. -/
def durationString (d : Nat) : String :=
  toString (d / second) ++ "s"

/-- bridge.go `Bridge`: the engine's whole state is the adapters root and
the timeout. -/
structure Bridge where
  adaptersPath : String
  timeout : Nat

/-- bridge.go `NewBridge`. `execDir` stands for the directory of the
running binary (`filepath.Dir(os.Executable())`), used only when the
caller passes an empty adapters path; `filepath.Join`'s lexical cleaning
of the `..` segment is not modelled (no claim depends on it). -/
def NewBridge (execDir : String) (adaptersPath : String) : Bridge :=
  if adaptersPath = "" then
    ⟨execDir ++ "/../adapters", defaultTimeout⟩
  else
    ⟨adaptersPath, defaultTimeout⟩

/-- bridge.go `Bridge.SetTimeout` (mutation modelled functionally). -/
def Bridge.SetTimeout (b : Bridge) (timeout : Nat) : Bridge :=
  ⟨b.adaptersPath, timeout⟩

/-- The resolved adapter entry path
`filepath.Join(b.adaptersPath, string(provider), "index.ts")`. -/
def Bridge.adapterPath (b : Bridge) (provider : String) : String :=
  b.adaptersPath ++ "/" ++ provider ++ "/index.ts"

/-- The observable result of one `Execute` call: the two Go return values,
plus the call's effects: whether the child process was spawned, and, when
it was, the argv of `exec.CommandContext` and the deadline handed to
`context.WithTimeout` for it. -/
structure ExecuteResult where
  response : Option Response
  err : Option ExecError
  spawned : Bool
  childArgv : Option (List String)
  deadline : Option Nat

/-- `json.Marshal` step of `Execute`: when `params` is nil no marshalling
happens and `stdinData` stays nil (an empty reader). -/
def marshalParams {π : Type} (w : World π) : Option π → Except String String
  | none => .ok ""
  | some p => w.marshal p

/-- bridge.go `Bridge.Execute`, branch for branch:
stat the resolved adapter path and fail fast when it does not exist;
marshal non-nil params, failing without a spawn on a marshal error;
otherwise spawn `bun run <path> <verb>` under a `b.timeout` deadline;
map a deadline expiry to a recoverable TIMEOUT `BridgeError`, any other
run error to a plain error carrying stderr; parse stdout into a
`Response`, mapping a parse failure to a plain error carrying the raw
output; finally return the parsed error when `ok` is false and `error`
is non-nil, and the response with a nil error otherwise. -/
def Bridge.Execute {π : Type} (b : Bridge) (w : World π) (provider : String)
    (verb : String) (params : Option π) : ExecuteResult :=
  if w.fileExists (b.adapterPath provider) = false then
    ⟨none, some (.localMsg ("adapter not found: " ++ provider)), false, none, none⟩
  else
    match marshalParams w params with
    | .error e =>
        ⟨none, some (.localMsg ("failed to marshal params: " ++ e)), false, none, none⟩
    | .ok _stdinData =>
        let argv := ["bun", "run", b.adapterPath provider, verb]
        match w.run with
        | .timeout =>
            ⟨none,
             some (.bridgeErr
               ⟨.TIMEOUT,
                "adapter command timed out after " ++ durationString b.timeout,
                true, none⟩),
             true, some argv, some b.timeout⟩
        | .crash errMsg stderr =>
            ⟨none,
             some (.localMsg
               ("adapter execution failed: " ++ errMsg ++ " (stderr: " ++ stderr ++ ")")),
             true, some argv, some b.timeout⟩
        | .clean stdout =>
            match w.parse stdout with
            | .error pe =>
                ⟨none,
                 some (.localMsg
                   ("failed to parse adapter response: " ++ pe ++ " (output: " ++ stdout ++ ")")),
                 true, some argv, some b.timeout⟩
            | .ok response =>
                match response.ok, response.error with
                | false, some e =>
                    ⟨some response, some (.bridgeErr e), true, some argv, some b.timeout⟩
                | _, _ => ⟨some response, none, true, some argv, some b.timeout⟩

/-!
The TypeScript adapter side: `adapters/base.ts` (the `BaseAdapter` class)
and `adapters/vercel/index.ts` (`VercelAdapter.syncEnv`).
-/

/-- types.ts `BridgeResponse<T>`: the envelope as a TS object literal.
`data`, `error` and `adapter_version` are modelled as `Option`s so that a
key's very presence in the constructed object is expressible
(`adapter_version` is a required key in the type, and the claims are about
the constructors always supplying it). -/
structure TSResponse (α : Type) where
  ok : Bool
  data : Option α
  error : Option BridgeError
  adapter_version : Option String

/-- A thrown JS error as the `catch` block inspects it: its `message` and
optionally its `stack`. -/
structure JsError where
  message : String
  stack : Option String

/-- base.ts `BaseAdapter.success`: `{ ok: true, data, adapter_version }`
(no `error` key). `version` stands for `this.version`. -/
def BaseAdapter.success {α : Type} (version : String) (data : α) : TSResponse α :=
  ⟨true, some data, none, some version⟩

/-- base.ts `BaseAdapter.error`: `{ ok: false, error, adapter_version }`
(no `data` key). -/
def BaseAdapter.error {α : Type} (version : String) (e : BridgeError) : TSResponse α :=
  ⟨false, none, some e, some version⟩

/-- base.ts `BaseAdapter.unsupported`. -/
def BaseAdapter.unsupported {α : Type} (version : String) (verb : String) : TSResponse α :=
  BaseAdapter.error version
    ⟨.UNSUPPORTED,
     "Command \x27" ++ verb ++ "\x27 is not supported by this adapter",
     false, none⟩

/-- An adapter subclass as `BaseAdapter.execute` consumes it: `this.version`
plus the eight abstract verb handlers. A handler takes the (cast, untyped)
params and either resolves to an envelope or rejects with a thrown error.
`α` is the envelope payload type. -/
structure AdapterImpl (α : Type) where
  version : String
  capabilities : Option Json → Except JsError (TSResponse α)
  authStart : Option Json → Except JsError (TSResponse α)
  authRefresh : Option Json → Except JsError (TSResponse α)
  fetchConfig : Option Json → Except JsError (TSResponse α)
  syncEnv : Option Json → Except JsError (TSResponse α)
  deployPreview : Option Json → Except JsError (TSResponse α)
  dnsUpdate : Option Json → Except JsError (TSResponse α)
  dnsRollback : Option Json → Except JsError (TSResponse α)

/-- The closed verb vocabulary handled by the `switch` in
`BaseAdapter.execute` (and by the specification's Verb data type). -/
def knownVerbs : List String :=
  ["capabilities", "auth:start", "auth:refresh", "fetch:config",
   "sync:env", "deploy:preview", "dns:update", "dns:rollback"]

/-- The `switch (verb)` body of base.ts `BaseAdapter.execute`, including
its `default` arm (the unknown-verb envelope, which cannot throw). -/
def BaseAdapter.dispatch {α : Type} (a : AdapterImpl α) (verb : String)
    (params : Option Json) : Except JsError (TSResponse α) :=
  match verb with
  | "capabilities" => a.capabilities params
  | "auth:start" => a.authStart params
  | "auth:refresh" => a.authRefresh params
  | "fetch:config" => a.fetchConfig params
  | "sync:env" => a.syncEnv params
  | "deploy:preview" => a.deployPreview params
  | "dns:update" => a.dnsUpdate params
  | "dns:rollback" => a.dnsRollback params
  | _ =>
      .ok (BaseAdapter.error a.version
        ⟨.INVALID_PARAMS, "Unknown verb: " ++ verb, false, none⟩)

/-- The `details: { stack: ... }` object of the catch arm; serialized JSON
omits a key holding `undefined`. -/
def stackDetails (e : JsError) : Json :=
  match e.stack with
  | some s => .obj [("stack", .str s)]
  | none => .obj []

/-- base.ts `BaseAdapter.execute`: run the dispatch under `try`, mapping a
thrown error to an UNKNOWN envelope, and write the resulting envelope to
standard output (the written envelope is this function's value). -/
def BaseAdapter.execute {α : Type} (a : AdapterImpl α) (verb : String)
    (params : Option Json) : TSResponse α :=
  match BaseAdapter.dispatch a verb params with
  | .ok response => response
  | .error err =>
      BaseAdapter.error a.version
        ⟨.UNKNOWN, err.message, false, some (stackDetails err)⟩

/-- The specification's envelope invariant: `ok` true forbids an `error`
key, `ok` false forbids `data` and requires `error`, and
`adapter_version` is always present. -/
def envInvariant {α : Type} (r : TSResponse α) : Prop :=
  (r.ok = true → r.error = none) ∧
  (r.ok = false → r.data = none ∧ r.error.isSome = true) ∧
  r.adapter_version.isSome = true

/-- types.ts `EnvVar`. -/
structure EnvVar where
  key : String
  value : String
  target : List String

/-- types.ts `SyncEnvData`. -/
structure SyncEnvData where
  synced : Nat
  failed : List String

/-- The `for (const env of env_vars)` loop of vercel `syncEnv`. `post i`
is the outcome of the i-th POST to the Vercel env endpoint: `.ok b` is a
completed HTTP response with `response.ok = b`, `.error e` is a thrown
fetch error (which aborts the loop into the catch arm). `synced` and
`failed` are the accumulators; a failed var pushes its key. -/
def syncEnvLoop (post : Nat → Except JsError Bool) :
    List EnvVar → Nat → Nat → List String → Except JsError (Nat × List String)
  | [], _, synced, failed => .ok (synced, failed)
  | env :: rest, i, synced, failed =>
      match post i with
      | .error e => .error e
      | .ok true => syncEnvLoop post rest (i + 1) (synced + 1) failed
      | .ok false => syncEnvLoop post rest (i + 1) synced (failed ++ [env.key])

/-- vercel/index.ts `VercelAdapter.syncEnv`: iterate the env vars, counting
each posted var as synced or recording its key as failed; a thrown fetch
error is caught and returned as a recoverable NETWORK_ERROR envelope.
`version` stands for `this.version` (`"1.0.0"`). -/
def VercelAdapter.syncEnv (version : String) (post : Nat → Except JsError Bool)
    (env_vars : List EnvVar) : TSResponse SyncEnvData :=
  match syncEnvLoop post env_vars 0 0 [] with
  | .ok (synced, failed) => BaseAdapter.success version ⟨synced, failed⟩
  | .error err =>
      BaseAdapter.error version ⟨.NETWORK_ERROR, err.message, true, none⟩

/-!
Concrete fixtures used by witnesses and counterexamples, and helper lemmas
shared between theorems.
-/

/-- A parse oracle that always fails, as `json.Unmarshal` does on input
that is not JSON. -/
def parseAlwaysFails : String → Except String Response :=
  fun _ => .error "invalid character"

/-- A parse oracle that always yields the envelope `r`. -/
def parseTo (r : Response) : String → Except String Response :=
  fun _ => .ok r

/-- A concrete world over string params whose marshalling always
succeeds. -/
def mkWorld (fe : Bool) (run : RunOutcome)
    (parse : String → Except String Response) : World String :=
  ⟨fun _ => fe, fun s => .ok s, run, parse⟩

/-- A concrete engine with the default timeout. -/
def sampleBridge : Bridge :=
  ⟨"/opt/adapters", defaultTimeout⟩

/-- A concrete adapter-reported failure. -/
def authFailedErr : BridgeError :=
  ⟨.AUTH_FAILED, "bad token", true, none⟩

/-- A failure envelope as in the spec's concrete scenario. -/
def failEnvelope : Response :=
  ⟨false, none, some authFailedErr, "1.0.0"⟩

/-- An envelope declaring failure while carrying no error record. -/
def okFalseNilErrEnvelope : Response :=
  ⟨false, none, none, "1.0.0"⟩

/-- A handler that resolves to a success envelope. -/
def okHandler : Option Json → Except JsError (TSResponse Json) :=
  fun _ => .ok (BaseAdapter.success "1.0.0" Json.null)

/-- A handler that rejects (throws). -/
def throwHandler : Option Json → Except JsError (TSResponse Json) :=
  fun _ => .error ⟨"boom", none⟩

/-- An adapter whose handlers all resolve successfully. -/
def okImpl : AdapterImpl Json :=
  ⟨"1.0.0", okHandler, okHandler, okHandler, okHandler, okHandler,
   okHandler, okHandler, okHandler⟩

/-- An adapter whose capabilities handler throws. -/
def throwImpl : AdapterImpl Json :=
  ⟨"1.0.0", throwHandler, okHandler, okHandler, okHandler, okHandler,
   okHandler, okHandler, okHandler⟩

/-- Once the adapter file is found and the params marshal, `Execute`
reaches the spawn branch: the child argv is built from the resolved path
and the verb, and the child context gets the bridge's timeout. -/
lemma Execute_spawn_shape {π : Type} (b : Bridge) (w : World π)
    (provider verb : String) (params : Option π) (s : String)
    (hfe : w.fileExists (b.adapterPath provider) = true)
    (hm : marshalParams w params = .ok s) :
    (b.Execute w provider verb params).spawned = true ∧
    (b.Execute w provider verb params).childArgv =
      some ["bun", "run", b.adapterPath provider, verb] ∧
    (b.Execute w provider verb params).deadline = some b.timeout := by
  unfold Bridge.Execute
  rw [hfe, hm]
  cases hr : w.run with
  | timeout => simp
  | crash errMsg stderr => simp
  | clean stdout =>
      cases hp : w.parse stdout with
      | error pe => simp [hp]
      | ok resp =>
          cases hok : resp.ok <;> cases he : resp.error <;> simp [hp, hok, he]

/-- An unknown verb falls through the `switch` of `BaseAdapter.dispatch`
to the `default` arm. -/
lemma dispatch_unknown {α : Type} (a : AdapterImpl α) (verb : String)
    (p : Option Json) (h : verb ∉ knownVerbs) :
    BaseAdapter.dispatch a verb p =
      .ok (BaseAdapter.error a.version
        ⟨.INVALID_PARAMS, "Unknown verb: " ++ verb, false, none⟩) := by
  simp only [knownVerbs, List.mem_cons, List.not_mem_nil, or_false, not_or] at h
  obtain ⟨h1, h2, h3, h4, h5, h6, h7, h8⟩ := h
  simp [BaseAdapter.dispatch, h1, h2, h3, h4, h5, h6, h7, h8]

/-- `BaseAdapter.execute` on an unknown verb yields the INVALID_PARAMS
envelope built by the base class. -/
lemma execute_unknown_verb {α : Type} (a : AdapterImpl α) (verb : String)
    (p : Option Json) (h : verb ∉ knownVerbs) :
    BaseAdapter.execute a verb p =
      BaseAdapter.error a.version
        ⟨.INVALID_PARAMS, "Unknown verb: " ++ verb, false, none⟩ := by
  unfold BaseAdapter.execute
  rw [dispatch_unknown a verb p h]

/-!
Claim theorems.
-/

/-- C6: for a provider whose resolved adapter path (adapters root, plus
provider-named subdirectory, plus entry file) does not exist, `Execute`
with any verb fails immediately with the local adapter-not-found error:
both return values and effects are fixed, no child process is spawned and
no deadline context is created. -/
theorem Execute_adapter_not_found {π : Type} (b : Bridge) (w : World π)
    (provider verb : String) (params : Option π)
    (h : w.fileExists (b.adapterPath provider) = false) :
    b.Execute w provider verb params =
      ⟨none, some (.localMsg ("adapter not found: " ++ provider)), false, none, none⟩ := by
  simp [Bridge.Execute, h]

/-- Witness for `Execute_adapter_not_found` at a concrete bridge, world,
provider and verb. -/
theorem Execute_adapter_not_found_witness :
    (mkWorld false (.clean "") parseAlwaysFails).fileExists
        (sampleBridge.adapterPath "render") = false ∧
    sampleBridge.Execute (mkWorld false (.clean "") parseAlwaysFails)
        "render" "capabilities" none =
      ⟨none, some (.localMsg ("adapter not found: " ++ "render")), false, none, none⟩ :=
  ⟨rfl, Execute_adapter_not_found sampleBridge _ "render" "capabilities" none rfl⟩

/-- C3: when the configured deadline elapses before the child exits
(`cmd.Run` errors with the timeout context expired), `Execute` returns
exactly a `BridgeError` with code TIMEOUT and `recoverable` true — no
other error shape. -/
theorem Execute_timeout_error {π : Type} (b : Bridge) (w : World π)
    (provider verb : String) (params : Option π) (s : String)
    (hfe : w.fileExists (b.adapterPath provider) = true)
    (hm : marshalParams w params = .ok s)
    (hrun : w.run = .timeout) :
    (b.Execute w provider verb params).err =
      some (.bridgeErr
        ⟨.TIMEOUT,
         "adapter command timed out after " ++ durationString b.timeout,
         true, none⟩) := by
  simp [Bridge.Execute, hfe, hm, hrun]

/-- Witness for `Execute_timeout_error` at a concrete bridge, world and
verb. -/
theorem Execute_timeout_error_witness :
    (sampleBridge.Execute (mkWorld true .timeout parseAlwaysFails)
        "vercel" "deploy:preview" none).err =
      some (.bridgeErr
        ⟨.TIMEOUT,
         "adapter command timed out after " ++ durationString sampleBridge.timeout,
         true, none⟩) :=
  Execute_timeout_error sampleBridge _ "vercel" "deploy:preview" none "" rfl rfl rfl

/-- C2: when the adapter output parses as an envelope with `ok` false and
a non-null `error`, `Execute` returns that envelope together with the
parsed `BridgeError` itself as the call's error value — the very record
`e`, so its code and recoverable fields are unchanged, not rewritten,
wrapped or merely logged. -/
theorem Execute_propagates_bridgeError {π : Type} (b : Bridge) (w : World π)
    (provider verb : String) (params : Option π) (s stdout : String)
    (resp : Response) (e : BridgeError)
    (hfe : w.fileExists (b.adapterPath provider) = true)
    (hm : marshalParams w params = .ok s)
    (hrun : w.run = .clean stdout)
    (hp : w.parse stdout = .ok resp)
    (hok : resp.ok = false)
    (he : resp.error = some e) :
    b.Execute w provider verb params =
      ⟨some resp, some (.bridgeErr e), true,
       some ["bun", "run", b.adapterPath provider, verb], some b.timeout⟩ := by
  simp [Bridge.Execute, hfe, hm, hrun, hp, hok, he]

/-- Witness for `Execute_propagates_bridgeError`: the spec's concrete
scenario, an AUTH_FAILED envelope for verb `fetch:config`. -/
theorem Execute_propagates_bridgeError_witness :
    sampleBridge.Execute (mkWorld true (.clean "out") (parseTo failEnvelope))
        "vercel" "fetch:config" none =
      ⟨some failEnvelope, some (.bridgeErr authFailedErr), true,
       some ["bun", "run", sampleBridge.adapterPath "vercel", "fetch:config"],
       some sampleBridge.timeout⟩ :=
  Execute_propagates_bridgeError sampleBridge _ "vercel" "fetch:config" none
    "" "out" failEnvelope authFailedErr rfl rfl rfl rfl rfl rfl

/-- C9: when the adapter output parses as an envelope with `ok` false but
a null `error` field, `Execute` returns that envelope with a nil error
value — the call is reported as a success, i.e. the engine does not
enforce the envelope invariant on incoming responses. -/
theorem Execute_ok_false_nil_error_success {π : Type} (b : Bridge) (w : World π)
    (provider verb : String) (params : Option π) (s stdout : String)
    (resp : Response)
    (hfe : w.fileExists (b.adapterPath provider) = true)
    (hm : marshalParams w params = .ok s)
    (hrun : w.run = .clean stdout)
    (hp : w.parse stdout = .ok resp)
    (hok : resp.ok = false)
    (he : resp.error = none) :
    b.Execute w provider verb params =
      ⟨some resp, none, true,
       some ["bun", "run", b.adapterPath provider, verb], some b.timeout⟩ := by
  simp [Bridge.Execute, hfe, hm, hrun, hp, hok, he]

/-- Witness for `Execute_ok_false_nil_error_success`: a concrete envelope
declaring failure with no error record comes back with a nil error. -/
theorem Execute_ok_false_nil_error_success_witness :
    sampleBridge.Execute
        (mkWorld true (.clean "out") (parseTo okFalseNilErrEnvelope))
        "vercel" "sync:env" none =
      ⟨some okFalseNilErrEnvelope, none, true,
       some ["bun", "run", sampleBridge.adapterPath "vercel", "sync:env"],
       some sampleBridge.timeout⟩ :=
  Execute_ok_false_nil_error_success sampleBridge _ "vercel" "sync:env" none
    "" "out" okFalseNilErrEnvelope rfl rfl rfl rfl rfl rfl

/-- C5: when the child exits cleanly but its stdout does not parse as a
`Response` envelope, `Execute` returns a plain parse error — never a
`BridgeError` of any code — whose message contains the raw output text. -/
theorem Execute_malformed_output_error {π : Type} (b : Bridge) (w : World π)
    (provider verb : String) (params : Option π) (s stdout pe : String)
    (hfe : w.fileExists (b.adapterPath provider) = true)
    (hm : marshalParams w params = .ok s)
    (hrun : w.run = .clean stdout)
    (hp : w.parse stdout = .error pe) :
    (b.Execute w provider verb params).err =
      some (.localMsg
        ("failed to parse adapter response: " ++ pe ++ " (output: " ++ stdout ++ ")")) ∧
    (∀ e : BridgeError,
      (b.Execute w provider verb params).err ≠ some (.bridgeErr e)) ∧
    (∃ pre post,
      "failed to parse adapter response: " ++ pe ++ " (output: " ++ stdout ++ ")" =
        pre ++ stdout ++ post) := by
  refine ⟨by simp [Bridge.Execute, hfe, hm, hrun, hp], ?_, ?_⟩
  · intro e hcontra
    simp [Bridge.Execute, hfe, hm, hrun, hp] at hcontra
  · exact ⟨"failed to parse adapter response: " ++ pe ++ " (output: ", ")", rfl⟩

/-- Witness for `Execute_malformed_output_error`: the spec's concrete
scenario, raw output `not json`. -/
theorem Execute_malformed_output_error_witness :
    (sampleBridge.Execute (mkWorld true (.clean "not json") parseAlwaysFails)
        "vercel" "capabilities" none).err =
      some (.localMsg
        ("failed to parse adapter response: " ++ "invalid character" ++
          " (output: " ++ "not json" ++ ")")) ∧
    (∀ e : BridgeError,
      (sampleBridge.Execute (mkWorld true (.clean "not json") parseAlwaysFails)
          "vercel" "capabilities" none).err ≠ some (.bridgeErr e)) ∧
    (∃ pre post,
      "failed to parse adapter response: " ++ "invalid character" ++
          " (output: " ++ "not json" ++ ")" =
        pre ++ "not json" ++ post) :=
  Execute_malformed_output_error sampleBridge _ "vercel" "capabilities" none
    "" "not json" "invalid character" rfl rfl rfl rfl

/-- C4 counterexample: on a crash before an envelope is produced (child
exits with error, deadline not expired), the error `Execute` returns is a
plain formatted error, not a `*BridgeError` — so in particular not an
error of code UNKNOWN, refuting the claim as stated; the stderr text is
carried in the plain message. -/
theorem Execute_crash_error_cex :
    (sampleBridge.Execute
        (mkWorld true (.crash "exit status 1" "boom") parseAlwaysFails)
        "vercel" "capabilities" none).err =
      some (.localMsg
        ("adapter execution failed: " ++ "exit status 1" ++
          " (stderr: " ++ "boom" ++ ")")) ∧
    ((sampleBridge.Execute
        (mkWorld true (.crash "exit status 1" "boom") parseAlwaysFails)
        "vercel" "capabilities" none).err.map ExecError.isBridgeErr) = some false :=
  ⟨rfl, rfl⟩

/-- C4 (amended): on a crash before an envelope is produced, `Execute`
synthesizes a plain engine-local error — not a `BridgeError`, so it has no
code at all — whose message carries the captured standard-error text. -/
theorem Execute_crash_plain_error {π : Type} (b : Bridge) (w : World π)
    (provider verb : String) (params : Option π) (s errMsg stderr : String)
    (hfe : w.fileExists (b.adapterPath provider) = true)
    (hm : marshalParams w params = .ok s)
    (hrun : w.run = .crash errMsg stderr) :
    (b.Execute w provider verb params).err =
      some (.localMsg
        ("adapter execution failed: " ++ errMsg ++ " (stderr: " ++ stderr ++ ")")) ∧
    (∀ e : BridgeError,
      (b.Execute w provider verb params).err ≠ some (.bridgeErr e)) ∧
    (∃ pre post,
      "adapter execution failed: " ++ errMsg ++ " (stderr: " ++ stderr ++ ")" =
        pre ++ stderr ++ post) := by
  refine ⟨by simp [Bridge.Execute, hfe, hm, hrun], ?_, ?_⟩
  · intro e hcontra
    simp [Bridge.Execute, hfe, hm, hrun] at hcontra
  · exact ⟨"adapter execution failed: " ++ errMsg ++ " (stderr: ", ")", rfl⟩

/-- Witness for `Execute_crash_plain_error` at a concrete crash. -/
theorem Execute_crash_plain_error_witness :
    (sampleBridge.Execute
        (mkWorld true (.crash "exit status 2" "oops") parseAlwaysFails)
        "netlify" "dns:update" none).err =
      some (.localMsg
        ("adapter execution failed: " ++ "exit status 2" ++
          " (stderr: " ++ "oops" ++ ")")) ∧
    (∀ e : BridgeError,
      (sampleBridge.Execute
          (mkWorld true (.crash "exit status 2" "oops") parseAlwaysFails)
          "netlify" "dns:update" none).err ≠ some (.bridgeErr e)) ∧
    (∃ pre post,
      "adapter execution failed: " ++ "exit status 2" ++
          " (stderr: " ++ "oops" ++ ")" =
        pre ++ "oops" ++ post) :=
  Execute_crash_plain_error sampleBridge _ "netlify" "dns:update" none
    "" "exit status 2" "oops" rfl rfl rfl

/-- C1 counterexample: `frobnicate` is outside the closed verb set, yet
with the adapter present `Execute` reaches the spawn branch and passes the
verb to the child verbatim — the engine performs no verb validation, so
the claimed pre-spawn rejection does not happen. -/
theorem Execute_unknown_verb_spawns_cex :
    "frobnicate" ∉ knownVerbs ∧
    (sampleBridge.Execute (mkWorld true (.clean "") parseAlwaysFails)
        "vercel" "frobnicate" none).spawned = true ∧
    (sampleBridge.Execute (mkWorld true (.clean "") parseAlwaysFails)
        "vercel" "frobnicate" none).childArgv =
      some ["bun", "run", sampleBridge.adapterPath "vercel", "frobnicate"] :=
  ⟨by decide, rfl, rfl⟩

/-- C1 (amended): the execution engine performs no verb validation — for
every verb string, once the adapter path exists and the params marshal,
the spawn branch is reached with the verb in the child argv; verbs outside
the closed set are instead rejected in-process by the adapter base class,
which answers with an `ok:false` INVALID_PARAMS envelope. -/
theorem Execute_no_verb_validation {π : Type} (b : Bridge) (w : World π)
    (provider verb : String) (params : Option π) (s : String)
    (hfe : w.fileExists (b.adapterPath provider) = true)
    (hm : marshalParams w params = .ok s) :
    ((b.Execute w provider verb params).spawned = true ∧
     (b.Execute w provider verb params).childArgv =
       some ["bun", "run", b.adapterPath provider, verb]) ∧
    (∀ (α : Type) (a : AdapterImpl α) (p : Option Json), verb ∉ knownVerbs →
      BaseAdapter.execute a verb p =
        BaseAdapter.error a.version
          ⟨.INVALID_PARAMS, "Unknown verb: " ++ verb, false, none⟩) :=
  ⟨⟨(Execute_spawn_shape b w provider verb params s hfe hm).1,
    (Execute_spawn_shape b w provider verb params s hfe hm).2.1⟩,
   fun _ a p h => execute_unknown_verb a verb p h⟩

/-- Witness for `Execute_no_verb_validation` at the concrete unknown verb
`frobnicate`. -/
theorem Execute_no_verb_validation_witness :
    ((sampleBridge.Execute (mkWorld true (.clean "") parseAlwaysFails)
        "vercel" "frobnicate" none).spawned = true ∧
     (sampleBridge.Execute (mkWorld true (.clean "") parseAlwaysFails)
        "vercel" "frobnicate" none).childArgv =
       some ["bun", "run", sampleBridge.adapterPath "vercel", "frobnicate"]) ∧
    BaseAdapter.execute okImpl "frobnicate" none =
      BaseAdapter.error okImpl.version
        ⟨.INVALID_PARAMS, "Unknown verb: " ++ "frobnicate", false, none⟩ :=
  ⟨(Execute_no_verb_validation sampleBridge _ "vercel" "frobnicate" none
      "" rfl rfl).1,
   (Execute_no_verb_validation sampleBridge
      (mkWorld true (.clean "") parseAlwaysFails) "vercel" "frobnicate" none
      "" rfl rfl).2 Json okImpl none (by decide)⟩

/-- C7: every envelope the adapter base class constructs — via its
success and error helpers (including unsupported), the unknown-verb arm of
`execute`, and the caught-exception arm of `execute` — satisfies the
envelope invariant: `ok` true forbids `error`, `ok` false forbids `data`
and requires `error`, and `adapter_version` is always present. -/
theorem BaseAdapter_envelope_invariant :
    (∀ (α : Type) (v : String) (d : α), envInvariant (BaseAdapter.success v d)) ∧
    (∀ (α : Type) (v : String) (e : BridgeError),
      envInvariant (BaseAdapter.error v e : TSResponse α)) ∧
    (∀ (α : Type) (v verb : String),
      envInvariant (BaseAdapter.unsupported v verb : TSResponse α)) ∧
    (∀ (α : Type) (a : AdapterImpl α) (verb : String) (p : Option Json),
      verb ∉ knownVerbs → envInvariant (BaseAdapter.execute a verb p)) ∧
    (∀ (α : Type) (a : AdapterImpl α) (verb : String) (p : Option Json)
       (e : JsError),
      BaseAdapter.dispatch a verb p = .error e →
      envInvariant (BaseAdapter.execute a verb p)) := by
  refine ⟨?_, ?_, ?_, ?_, ?_⟩
  · intro α v d
    simp [envInvariant, BaseAdapter.success]
  · intro α v e
    simp [envInvariant, BaseAdapter.error]
  · intro α v verb
    simp [envInvariant, BaseAdapter.unsupported, BaseAdapter.error]
  · intro α a verb p h
    rw [execute_unknown_verb a verb p h]
    simp [envInvariant, BaseAdapter.error]
  · intro α a verb p e hd
    unfold BaseAdapter.execute
    rw [hd]
    simp [envInvariant, BaseAdapter.error]

/-- Witness for `BaseAdapter_envelope_invariant`: each arm instantiated at
concrete data, including an unknown verb and a throwing handler. -/
theorem BaseAdapter_envelope_invariant_witness :
    envInvariant (BaseAdapter.success "1.0.0" Json.null) ∧
    envInvariant (BaseAdapter.error "1.0.0" authFailedErr : TSResponse Json) ∧
    envInvariant (BaseAdapter.unsupported "1.0.0" "dns:update" : TSResponse Json) ∧
    envInvariant (BaseAdapter.execute okImpl "frobnicate" none) ∧
    envInvariant (BaseAdapter.execute throwImpl "capabilities" none) :=
  ⟨BaseAdapter_envelope_invariant.1 Json "1.0.0" Json.null,
   BaseAdapter_envelope_invariant.2.1 Json "1.0.0" authFailedErr,
   BaseAdapter_envelope_invariant.2.2.1 Json "1.0.0" "dns:update",
   BaseAdapter_envelope_invariant.2.2.2.1 Json okImpl "frobnicate" none (by decide),
   BaseAdapter_envelope_invariant.2.2.2.2 Json throwImpl "capabilities" none
     ⟨"boom", none⟩ rfl⟩

/-- C8: a fresh `Bridge` carries the default timeout of 30 seconds;
`SetTimeout d` changes exactly the timeout, after which every spawned
`Execute` invocation hands deadline `d` to the child context; and the
engine's behavior is a function of nothing but its two fields — the
adapters root (resolution configuration) and the timeout. -/
theorem Bridge_timeout_default_and_configurable :
    (∀ execDir adaptersPath,
      (NewBridge execDir adaptersPath).timeout = 30 * second) ∧
    (∀ (b : Bridge) (d : Nat),
      (b.SetTimeout d).timeout = d ∧
      (b.SetTimeout d).adaptersPath = b.adaptersPath) ∧
    (∀ (π : Type) (b : Bridge) (d : Nat) (w : World π)
       (provider verb : String) (params : Option π) (s : String),
      w.fileExists ((b.SetTimeout d).adapterPath provider) = true →
      marshalParams w params = .ok s →
      ((b.SetTimeout d).Execute w provider verb params).deadline = some d) ∧
    (∀ (π : Type) (b₁ b₂ : Bridge),
      b₁.adaptersPath = b₂.adaptersPath → b₁.timeout = b₂.timeout →
      ∀ (w : World π) (provider verb : String) (params : Option π),
        b₁.Execute w provider verb params = b₂.Execute w provider verb params) := by
  refine ⟨?_, ?_, ?_, ?_⟩
  · intro execDir adaptersPath
    unfold NewBridge
    split <;> rfl
  · intro b d
    exact ⟨rfl, rfl⟩
  · intro π b d w provider verb params s hfe hm
    exact (Execute_spawn_shape (b.SetTimeout d) w provider verb params s hfe hm).2.2
  · intro π b₁ b₂ hpath htime w provider verb params
    cases b₁
    cases b₂
    simp only at hpath htime
    rw [hpath, htime]

/-- Witness for `Bridge_timeout_default_and_configurable` at concrete
bridges, deadline and world. -/
theorem Bridge_timeout_default_and_configurable_witness :
    (NewBridge "/usr/local/bin" "").timeout = 30 * second ∧
    ((sampleBridge.SetTimeout (5 * second)).timeout = 5 * second ∧
     (sampleBridge.SetTimeout (5 * second)).adaptersPath = sampleBridge.adaptersPath) ∧
    ((sampleBridge.SetTimeout (5 * second)).Execute
        (mkWorld true .timeout parseAlwaysFails) "vercel" "sync:env" none).deadline =
      some (5 * second) ∧
    sampleBridge.Execute (mkWorld true .timeout parseAlwaysFails)
        "vercel" "sync:env" (none : Option String) =
      sampleBridge.Execute (mkWorld true .timeout parseAlwaysFails)
        "vercel" "sync:env" none :=
  ⟨Bridge_timeout_default_and_configurable.1 "/usr/local/bin" "",
   Bridge_timeout_default_and_configurable.2.1 sampleBridge (5 * second),
   Bridge_timeout_default_and_configurable.2.2.1 String sampleBridge (5 * second)
     (mkWorld true .timeout parseAlwaysFails) "vercel" "sync:env" none "" rfl rfl,
   Bridge_timeout_default_and_configurable.2.2.2 String sampleBridge sampleBridge
     rfl rfl (mkWorld true .timeout parseAlwaysFails) "vercel" "sync:env" none⟩

/-- Each env var processed by the sync loop is counted exactly once: a
successful run's counters extend the accumulators by the length of the
remaining list. -/
lemma syncEnvLoop_partition (post : Nat → Except JsError Bool) :
    ∀ (l : List EnvVar) (i synced : Nat) (failed : List String)
      (s : Nat) (f : List String),
      syncEnvLoop post l i synced failed = .ok (s, f) →
      s + f.length = (synced + failed.length) + l.length := by
  intro l
  induction l with
  | nil =>
      intro i synced failed s f h
      simp only [syncEnvLoop] at h
      cases h
      simp
  | cons env rest ih =>
      intro i synced failed s f h
      simp only [syncEnvLoop] at h
      cases hp : post i with
      | error e =>
          rw [hp] at h
          cases h
      | ok ok =>
          cases ok with
          | true =>
              rw [hp] at h
              have hrec := ih (i + 1) (synced + 1) failed s f h
              simp only [List.length_cons] at *
              omega
          | false =>
              rw [hp] at h
              have hrec := ih (i + 1) synced (failed ++ [env.key]) s f h
              simp only [List.length_append, List.length_cons,
                List.length_nil, List.length_singleton] at *
              omega

/-- C10: whenever the Vercel `syncEnv` returns a success envelope, its
`SyncEnvData` counts each input env var exactly once as synced or failed:
`synced` plus the length of `failed` equals the length of `env_vars`. -/
theorem VercelAdapter_syncEnv_counts (version : String)
    (post : Nat → Except JsError Bool) (env_vars : List EnvVar)
    (d : SyncEnvData)
    (h : (VercelAdapter.syncEnv version post env_vars).data = some d) :
    d.synced + d.failed.length = env_vars.length := by
  unfold VercelAdapter.syncEnv at h
  cases hloop : syncEnvLoop post env_vars 0 0 [] with
  | error e =>
      rw [hloop] at h
      simp [BaseAdapter.error] at h
  | ok p =>
      obtain ⟨s, f⟩ := p
      rw [hloop] at h
      simp only [BaseAdapter.success, Option.some_inj] at h
      have := syncEnvLoop_partition post env_vars 0 0 [] s f hloop
      rw [← h]
      simpa using this

/-- A concrete POST oracle: the even-indexed calls succeed, the odd fail
with a non-ok HTTP status. -/
def samplePost : Nat → Except JsError Bool :=
  fun i => .ok (decide (i % 2 = 0))

/-- Three concrete env vars. -/
def sampleEnvVars : List EnvVar :=
  [⟨"A", "1", ["production"]⟩, ⟨"B", "2", ["preview"]⟩, ⟨"C", "3", []⟩]

/-- The sync data `samplePost` produces on `sampleEnvVars`. -/
def sampleSyncData : SyncEnvData :=
  ⟨2, ["B"]⟩

/-- Witness for `VercelAdapter_syncEnv_counts` on a concrete run in which
one var fails and two sync. -/
theorem VercelAdapter_syncEnv_counts_witness :
    (VercelAdapter.syncEnv "1.0.0" samplePost sampleEnvVars).data =
      some sampleSyncData ∧
    sampleSyncData.synced + sampleSyncData.failed.length = sampleEnvVars.length :=
  ⟨rfl, VercelAdapter_syncEnv_counts "1.0.0" samplePost sampleEnvVars
    sampleSyncData rfl⟩
